import Mathlib

/-!
Verification development for the `ultrons/atom3d` example pipelines.

Shallow embedding of the two source files:
  * `examples/lba/enn/model.py`  — the ENN model wrapper, in particular the
    `expand_var_list` hyperparameter-expansion helper and the control flow
    of `ENN_LBA.forward`;
  * `examples/psr/gnn/train.py` — the correlation/evaluation module
    (`compute_global_correlations`), the per-epoch training loop with its
    checkpoint decision (`train`), and the per-epoch loss accumulation
    (`train_loop`).

Python numerics are modelled over ℚ (and ℝ where `np.sqrt` appears);
pandas NaN is modelled as `Option.none`; Python exceptions are modelled
as values of `PyErr` returned through `Except`.
-/

namespace Atom3D

/-! ### Embedding of `examples/lba/enn/model.py` -/

/-- A Python value as passed to `expand_var_list`: the code dispatches on
`type(var)` being `list`, `float` or `int`, and raises on anything else.
List elements are modelled as rationals (the hyperparameters are numbers). -/
inductive PyVal where
  | pFloat (q : ℚ)
  | pInt (z : ℤ)
  | pList (xs : List ℚ)
  | pStr (s : String)
  | pNone
deriving DecidableEq

/-- The Python builtin exception classes relevant to this code.  `TypeError`,
`ValueError` and `IndexError` are distinct classes in Python: a handler for
one does not catch another. -/
inductive PyErr where
  | typeError
  | valueError (msg : String)
  | indexError
deriving DecidableEq

/-- The name `type(var)` would render to inside the error message of
`expand_var_list` (modulo the surrounding `<class ...>` decoration). -/
def pyTypeName : PyVal → String
  | .pFloat _ => "float"
  | .pInt _ => "int"
  | .pList _ => "list"
  | .pStr _ => "str"
  | .pNone => "NoneType"

/-- Whether `type(var)` is `float`, `int` or `list` — the condition under
which `expand_var_list` does not raise its `ValueError`. -/
def isNumOrList : PyVal → Bool
  | .pFloat _ => true
  | .pInt _ => true
  | .pList _ => true
  | .pStr _ => false
  | .pNone => false

/-- Embedding of `expand_var_list` (model.py lines 526-533):

    def expand_var_list(var, num_cg_levels):
        if type(var) is list:
            var_list = var + (num_cg_levels-len(var))*[var[-1]]
        elif type(var) in [float, int]:
            var_list = [var] * num_cg_levels
        else:
            raise ValueError('Incorrect type {}'.format(type(var)))
        return var_list

For a list input, Python evaluates `var[-1]` before the multiplication, so
an empty list raises `IndexError` unconditionally; a negative repetition
count `(num_cg_levels - len(var))` yields the empty list, which ℕ
subtraction models exactly.  `var[-1]` on a nonempty list is its last
element (`List.getLastD` with an irrelevant default). -/
def expand_var_list (var : PyVal) (num_cg_levels : ℕ) : Except PyErr (List ℚ) :=
  match var with
  | .pList [] => Except.error PyErr.indexError
  | .pList (x :: xs) =>
      Except.ok ((x :: xs) ++
        List.replicate (num_cg_levels - (x :: xs).length) ((x :: xs).getLastD 0))
  | .pFloat q => Except.ok (List.replicate num_cg_levels q)
  | .pInt z => Except.ok (List.replicate num_cg_levels (z : ℚ))
  | .pStr s => Except.error (PyErr.valueError ("Incorrect type " ++ pyTypeName (.pStr s)))
  | .pNone => Except.error (PyErr.valueError ("Incorrect type " ++ pyTypeName .pNone))

/-- The channel-count call site in `ENN_LBA.__init__` (model.py line 56):
`num_channels = expand_var_list(num_channels, num_cg_levels+1)`. -/
def expand_num_channels (num_channels : PyVal) (num_cg_levels : ℕ) : Except PyErr (List ℚ) :=
  expand_var_list num_channels (num_cg_levels + 1)

/-- Validity of an input to `expand_var_list` for the purpose of producing a
padded list of exactly the requested length: a scalar (float or int), or a
nonempty list no longer than the requested length. -/
def validExpandInput (var : PyVal) (n : ℕ) : Prop :=
  match var with
  | .pFloat _ => True
  | .pInt _ => True
  | .pList xs => xs ≠ [] ∧ xs.length ≤ n
  | .pStr _ => False
  | .pNone => False

/-- The statements of `ENN_LBA.forward` (model.py lines 119-172), in source
order.  `pdb_set_trace` is the `import pdb; pdb.set_trace()` pair at lines
158-159, placed after the CG layers and before the scalars/output layers
that produce the prediction. -/
inductive Step where
  | prepare_input
  | print_shapes
  | sph_harms
  | rad_funcs
  | input_func_atom
  | input_func_edge
  | cormorant_cg
  | pdb_set_trace
  | get_scalars_atom
  | get_scalars_edge
  | output_layer_atom
  | return_prediction
deriving DecidableEq

/-- The main code path of `ENN_LBA.forward`, statement by statement, from the
source (both the `covariance_test` branch and the plain branch return the
prediction at the end, so a single `return_prediction` step closes the
trace). -/
def ENN_LBA_forward_trace : List Step :=
  [Step.prepare_input, Step.print_shapes, Step.sph_harms, Step.rad_funcs,
   Step.input_func_atom, Step.input_func_edge, Step.cormorant_cg,
   Step.pdb_set_trace, Step.get_scalars_atom, Step.get_scalars_edge,
   Step.output_layer_atom, Step.return_prediction]

/-- Execution outside an interactive debugging session: `pdb.set_trace()`
with no attached terminal halts the process (pdb hits end-of-input and
raises), so only the steps strictly before the first breakpoint run. -/
def runNonInteractive (steps : List Step) : List Step :=
  steps.takeWhile (fun s => s ≠ Step.pdb_set_trace)

/-! ### Embedding of `examples/psr/gnn/train.py`: correlation module -/

/-- A row of the results table handed to `compute_global_correlations`:
columns `structure`, `true`, `pred`, `target` (train.py lines 96-101).
Target group keys are modelled as naturals; only equality of keys matters
to the grouping. -/
structure Row where
  struct : String
  trueVal : ℚ
  predVal : ℚ
  target : ℕ
deriving DecidableEq

/-- Insert into a sorted list of keys (ascending). -/
def insertSortedN (x : ℕ) : List ℕ → List ℕ
  | [] => [x]
  | y :: ys => if x ≤ y then x :: y :: ys else y :: insertSortedN x ys

/-- Sort a list of group keys ascending (pandas `groupby` sorts keys). -/
def sortKeys (xs : List ℕ) : List ℕ := xs.foldr insertSortedN []

/-- `results.groupby(['target'])` (train.py line 21): the distinct target
keys in ascending order, each paired with the rows carrying that key in
their original order. -/
def groupByTarget (rows : List Row) : List (ℕ × List Row) :=
  (sortKeys (rows.map Row.target).dedup).map
    (fun t => (t, rows.filter (fun r => r.target == t)))

/-- The three pandas correlation methods (`Series.corr` with
`method='pearson' | 'kendall' | 'spearman'`) are external library code;
they are modelled as opaque functions from the two columns to a value that
may be NaN (`none`). -/
structure CorrFns where
  pearson : List ℚ → List ℚ → Option ℚ
  kendall : List ℚ → List ℚ → Option ℚ
  spearman : List ℚ → List ℚ → Option ℚ

/-- pandas `Series.mean()`: NaN entries are skipped; the mean of an empty
(or all-NaN) series is NaN, with no division performed. -/
def seriesMean (xs : List (Option ℚ)) : Option ℚ :=
  let vs := xs.filterMap id
  if vs.length = 0 then none else some (vs.sum / (vs.length : ℚ))

/-- Insert into a sorted list of rationals (ascending). -/
def insertSortedQ (x : ℚ) : List ℚ → List ℚ
  | [] => [x]
  | y :: ys => if x ≤ y then x :: y :: ys else y :: insertSortedQ x ys

/-- Sort a list of rationals ascending. -/
def sortQ (xs : List ℚ) : List ℚ := xs.foldr insertSortedQ []

/-- pandas `Series.median()`: NaN entries are skipped, the remaining values
are sorted, and the middle value (or the mean of the two middle values) is
returned; the median of an empty series is NaN. -/
def seriesMedian (xs : List (Option ℚ)) : Option ℚ :=
  let vs := sortQ (xs.filterMap id)
  if vs.length = 0 then none
  else if vs.length % 2 = 1 then some (vs.getD (vs.length / 2) 0)
  else some ((vs.getD (vs.length / 2 - 1) 0 + vs.getD (vs.length / 2) 0) / 2)

/-- The `per_target` table of `compute_global_correlations` (train.py lines
20-34): for each target group, skip it (`continue`) when it has fewer than
3 rows, otherwise record the key and the three correlations of the group's
`true` and `pred` columns. -/
def perTargetStats (fns : CorrFns) (results : List Row) :
    List (ℕ × Option ℚ × Option ℚ × Option ℚ) :=
  (groupByTarget results).filterMap fun g =>
    if g.2.length < 3 then none
    else some (g.1,
      fns.pearson (g.2.map Row.trueVal) (g.2.map Row.predVal),
      fns.kendall (g.2.map Row.trueVal) (g.2.map Row.predVal),
      fns.spearman (g.2.map Row.trueVal) (g.2.map Row.predVal))

/-- The flat mapping of named statistics returned by
`compute_global_correlations` (train.py lines 37-51). -/
structure GlobalCorrs where
  all_pearson : Option ℚ
  all_kendall : Option ℚ
  all_spearman : Option ℚ
  per_target_mean_pearson : Option ℚ
  per_target_mean_kendall : Option ℚ
  per_target_mean_spearman : Option ℚ
  per_target_median_pearson : Option ℚ
  per_target_median_kendall : Option ℚ
  per_target_median_spearman : Option ℚ

/-- Embedding of `compute_global_correlations` (train.py lines 19-51): the
global correlations over all rows, and the mean/median of each per-target
correlation column. -/
def compute_global_correlations (fns : CorrFns) (results : List Row) : GlobalCorrs :=
  { all_pearson := fns.pearson (results.map Row.trueVal) (results.map Row.predVal)
    all_kendall := fns.kendall (results.map Row.trueVal) (results.map Row.predVal)
    all_spearman := fns.spearman (results.map Row.trueVal) (results.map Row.predVal)
    per_target_mean_pearson :=
      seriesMean ((perTargetStats fns results).map (fun e => e.2.1))
    per_target_mean_kendall :=
      seriesMean ((perTargetStats fns results).map (fun e => e.2.2.1))
    per_target_mean_spearman :=
      seriesMean ((perTargetStats fns results).map (fun e => e.2.2.2))
    per_target_median_pearson :=
      seriesMedian ((perTargetStats fns results).map (fun e => e.2.1))
    per_target_median_kendall :=
      seriesMedian ((perTargetStats fns results).map (fun e => e.2.2.1))
    per_target_median_spearman :=
      seriesMedian ((perTargetStats fns results).map (fun e => e.2.2.2)) }

/-! ### Embedding of `examples/psr/gnn/train.py`: training loop -/

/-- The checkpoint dictionary written by `torch.save` at train.py lines
153-158: exactly the keys `epoch`, `model_state_dict`,
`optimizer_state_dict`, `loss`.  Model and optimizer states are opaque
tokens. -/
structure Checkpoint where
  epoch : ℕ
  model_state_dict : ℕ
  optimizer_state_dict : ℕ
  loss : ℚ
deriving DecidableEq

/-- What one iteration of the epoch loop observes: the training loss
returned by `train_loop`, the validation loss, the global Spearman
correlation `res['all_spearman']` of the validation pass, and the model
and optimizer state dictionaries at the end of the epoch. -/
structure EpochData where
  train_loss : ℚ
  val_loss : ℚ
  all_spearman : ℚ
  model_state : ℕ
  opt_state : ℕ
deriving DecidableEq

/-- The mutable state threaded through the epoch loop of `train` (train.py
lines 136-159): the three best-so-far trackers, the current contents of
`best_weights.pt` (none while no write has happened), and the trace of
epoch indices at which a checkpoint write occurred. -/
structure TrainState where
  best_val_loss : ℚ
  best_rp : ℚ
  best_rs : ℚ
  saved : Option Checkpoint
  writeEpochs : List ℕ
deriving DecidableEq

/-- Initialization at train.py lines 136-138: `best_val_loss = 999`,
`best_rp = 0`, `best_rs = 0`; no checkpoint exists yet. -/
def initState : TrainState :=
  { best_val_loss := 999, best_rp := 0, best_rs := 0, saved := none, writeEpochs := [] }

/-- One epoch's checkpoint decision (train.py lines 152-159):

    if res['all_spearman'] > best_rs:
        torch.save({'epoch': epoch, 'model_state_dict': ..., 'optimizer_state_dict': ...,
                    'loss': train_loss}, ... 'best_weights.pt')
        best_rs = res['all_spearman']
-/
def runEpoch (s : TrainState) (epoch : ℕ) (e : EpochData) : TrainState :=
  if e.all_spearman > s.best_rs then
    { s with
      saved := some ⟨epoch, e.model_state, e.opt_state, e.train_loss⟩,
      best_rs := e.all_spearman,
      writeEpochs := s.writeEpochs ++ [epoch] }
  else s

/-- The epoch loop `for epoch in range(1, args.num_epochs+1)` (train.py line
146), starting at index `i`. -/
def runEpochs : TrainState → ℕ → List EpochData → TrainState
  | s, _, [] => s
  | s, i, e :: es => runEpochs (runEpoch s i e) (i + 1) es

/-- The three dataset splits loaded at train.py lines 121-127.  A distinct
`test_loader` over the held-out test split is constructed at line 127. -/
inductive DatasetSplit where
  | trainSplit
  | valSplit
  | testSplit
deriving DecidableEq

/-- The observable outcome of `train` (train.py lines 117-197): the returned
triple `(best_val_loss, best_rp, best_rs)`, the final checkpoint file and
write trace, and — when `test_mode` is set — the behaviour of the final
block at lines 177-195: it reloads `best_weights.pt`, evaluates
`test(model, val_loader, device)` (line 180), and saves `test_df.to_csv`
whose columns are `structure, true, pred, target` (built at lines
96-101). -/
structure TrainOutput where
  best_val_loss : ℚ
  best_rp : ℚ
  best_rs : ℚ
  saved : Option Checkpoint
  writeEpochs : List ℕ
  finalReloadsBest : Bool
  finalEvalSplit : Option DatasetSplit
  finalCsvColumns : Option (List String)
deriving DecidableEq

/-- Embedding of `train` (train.py lines 117-197), abstracted over the
per-epoch observations.  Line 180 passes `val_loader`, not `test_loader`,
to the final `test` call. -/
def train (epochs : List EpochData) (test_mode : Bool) : TrainOutput :=
  let s := runEpochs initState 1 epochs
  { best_val_loss := s.best_val_loss
    best_rp := s.best_rp
    best_rs := s.best_rs
    saved := s.saved
    writeEpochs := s.writeEpochs
    finalReloadsBest := test_mode
    finalEvalSplit := if test_mode then some DatasetSplit.valSplit else none
    finalCsvColumns :=
      if test_mode then some ["structure", "true", "pred", "target"] else none }

/-! ### Embedding of `train_loop` (train.py lines 53-67) -/

/-- One batch of the training loader, as `train_loop` observes it: the
mean-squared-error loss value of the batch and `data.num_graphs`. -/
structure Batch where
  mse : ℝ
  num_graphs : ℕ

/-- The accumulation of `train_loop`'s body (train.py lines 56-66):
`loss_all += loss.item() * data.num_graphs; total += data.num_graphs`. -/
noncomputable def train_loop_acc (batches : List Batch) : ℝ × ℕ :=
  batches.foldl (fun p b => (p.1 + b.mse * (b.num_graphs : ℝ), p.2 + b.num_graphs)) (0, 0)

/-- Embedding of `train_loop`'s return value (train.py line 67):
`return np.sqrt(loss_all / total)`. -/
noncomputable def train_loop (batches : List Batch) : ℝ :=
  Real.sqrt ((train_loop_acc batches).1 / ((train_loop_acc batches).2 : ℝ))

/-! ### Concrete data used by witnesses and counterexamples -/

/-- Concrete correlation functions (perfectly correlated columns). -/
def demoFns : CorrFns :=
  { pearson := fun _ _ => some 1, kendall := fun _ _ => some 1, spearman := fun _ _ => some 1 }

/-- A results table with a single target group of only 2 rows, so no group
qualifies for per-target statistics. -/
def demoRows : List Row :=
  [{ struct := "T0/d1.pdb", trueVal := 1, predVal := 2, target := 0 },
   { struct := "T0/d2.pdb", trueVal := 2, predVal := 3, target := 0 }]

/-- The epoch sequence with global Spearman values [0.2, 0.5, 0.3, 0.9] from
the checkpoint claim. -/
def demoEpochs : List EpochData :=
  [{ train_loss := 0, val_loss := 0, all_spearman := 2/10, model_state := 1, opt_state := 1 },
   { train_loss := 0, val_loss := 0, all_spearman := 5/10, model_state := 2, opt_state := 2 },
   { train_loss := 0, val_loss := 0, all_spearman := 3/10, model_state := 3, opt_state := 3 },
   { train_loss := 0, val_loss := 0, all_spearman := 9/10, model_state := 4, opt_state := 4 }]

/-- An epoch sequence whose global Spearman values are all ≤ 0. -/
def demoNonposEpochs : List EpochData :=
  [{ train_loss := 0, val_loss := 0, all_spearman := -1, model_state := 1, opt_state := 1 },
   { train_loss := 0, val_loss := 0, all_spearman := 0, model_state := 2, opt_state := 2 }]

/-- A single training batch whose mean squared error is 4 with one graph:
the batch-size-weighted mean of the per-batch losses is 4. -/
def demoBatches : List Batch := [{ mse := 4, num_graphs := 1 }]

/-! ### Claims about `expand_var_list` -/

/-- Claim C4, counterexample: a list input longer than `num_cg_levels` is a
list hyperparameter input on which `expand_var_list` does not return a
sequence of exactly `num_cg_levels` entries — `[1, 2, 3]` expanded to 2
levels comes back unchanged with 3 entries, because the Python repetition
count `num_cg_levels - len(var)` is negative and yields no padding and no
truncation. -/
theorem C4_counterexample_long_list :
    expand_var_list (PyVal.pList [1, 2, 3]) 2 = Except.ok [1, 2, 3] ∧
    ([1, 2, 3] : List ℚ).length ≠ 2 := ⟨rfl, by simp⟩

/-- Claim C4, amended: for every float or int scalar and every nonempty list
input of length at most the requested count `n` (`num_cg_levels`, or
`num_cg_levels + 1` at the channel-count call site), `expand_var_list`
returns exactly `n` entries; a list input is a prefix of the output and
every appended entry equals the final input entry; a scalar is repeated in
every position. -/
theorem C4_expand_var_list_amended (var : PyVal) (n : ℕ) (h : validExpandInput var n) :
    ∃ out, expand_var_list var n = Except.ok out ∧ out.length = n ∧
      (∀ xs, var = PyVal.pList xs →
        out.take xs.length = xs ∧
        out.drop xs.length = List.replicate (n - xs.length) (xs.getLastD 0)) ∧
      (∀ q, var = PyVal.pFloat q → out = List.replicate n q) ∧
      (∀ z, var = PyVal.pInt z → out = List.replicate n (z : ℚ)) := by
  cases var with
  | pFloat q =>
      exact ⟨List.replicate n q, rfl, List.length_replicate .., by simp, by simp, by simp⟩
  | pInt z =>
      exact ⟨List.replicate n (z : ℚ), rfl, List.length_replicate .., by simp, by simp, by simp⟩
  | pList xs =>
      obtain ⟨hne, hlen⟩ := h
      match xs, hne with
      | x :: xs, _ =>
        refine ⟨(x :: xs) ++
            List.replicate (n - (x :: xs).length) ((x :: xs).getLastD 0), rfl, ?_, ?_,
            by simp, by simp⟩
        · simp only [List.length_append, List.length_replicate]
          exact Nat.add_sub_cancel' hlen
        · intro ys hys
          injection hys with hys
          subst hys
          exact ⟨List.take_left .., List.drop_left ..⟩
  | pStr s => exact absurd h (by simp [validExpandInput])
  | pNone => exact absurd h (by simp [validExpandInput])

/-- Claim C4, witness: the nonempty list `[5, 7]` expanded to 3 levels is a
valid input, and the amended statement holds on it. -/
theorem C4_witness :
    validExpandInput (PyVal.pList [5, 7]) 3 ∧
    (∃ out, expand_var_list (PyVal.pList [5, 7]) 3 = Except.ok out ∧ out.length = 3 ∧
      (∀ xs, PyVal.pList [5, 7] = PyVal.pList xs →
        out.take xs.length = xs ∧
        out.drop xs.length = List.replicate (3 - xs.length) (xs.getLastD 0)) ∧
      (∀ q, PyVal.pList [5, 7] = PyVal.pFloat q → out = List.replicate 3 q) ∧
      (∀ z, PyVal.pList [5, 7] = PyVal.pInt z → out = List.replicate 3 (z : ℚ))) := by
  have h : validExpandInput (PyVal.pList [5, 7]) 3 := ⟨by simp, by norm_num⟩
  exact ⟨h, C4_expand_var_list_amended (PyVal.pList [5, 7]) 3 h⟩

/-- Claim C5, counterexample: on the non-float, non-int, non-list input
`None`, `expand_var_list` raises `ValueError` — which is not an exception
of the type-error kind (Python's `TypeError` is a distinct exception
class; a `TypeError` handler would not catch it). -/
theorem C5_counterexample_not_type_error :
    expand_var_list PyVal.pNone 3 =
      Except.error (PyErr.valueError "Incorrect type NoneType") ∧
    Except.error (PyErr.valueError "Incorrect type NoneType") ≠
      (Except.error PyErr.typeError : Except PyErr (List ℚ)) :=
  ⟨rfl, by simp⟩

/-- Claim C5, amended: for every input to `expand_var_list` that is not a
float, an int, or a list, the call raises rather than returning — but the
exception is a `ValueError` whose message reports the incorrect type, not
a `TypeError`. -/
theorem C5_value_error_amended (var : PyVal) (n : ℕ) (h : isNumOrList var = false) :
    expand_var_list var n =
      Except.error (PyErr.valueError ("Incorrect type " ++ pyTypeName var)) ∧
    (∀ msg, PyErr.valueError msg ≠ PyErr.typeError) ∧
    (∀ xs : List ℚ, expand_var_list var n ≠ Except.ok xs) := by
  refine ⟨?_, fun msg => by simp, ?_⟩
  · cases var <;> simp_all [isNumOrList, expand_var_list]
  · intro xs hxs
    cases var <;> simp_all [isNumOrList, expand_var_list]

/-- Claim C5, witness: the amended statement instantiated at the input
`None` with 3 levels. -/
theorem C5_witness :
    isNumOrList PyVal.pNone = false ∧
    expand_var_list PyVal.pNone 3 =
      Except.error (PyErr.valueError ("Incorrect type " ++ pyTypeName PyVal.pNone)) :=
  ⟨rfl, (C5_value_error_amended PyVal.pNone 3 rfl).1⟩

/-- Claim C10: for the empty list input, `expand_var_list` raises an
`IndexError` (from `var[-1]` on an empty list, evaluated before the list
repetition) — not the documented type error, and no padded result is
returned. -/
theorem C10_empty_list_index_error (n : ℕ) :
    expand_var_list (PyVal.pList []) n = Except.error PyErr.indexError ∧
    PyErr.indexError ≠ PyErr.typeError ∧
    (∀ msg, PyErr.indexError ≠ PyErr.valueError msg) ∧
    (∀ xs : List ℚ, expand_var_list (PyVal.pList []) n ≠ Except.ok xs) :=
  ⟨rfl, by simp, fun msg => by simp, fun xs => by simp [expand_var_list]⟩

/-! ### Claim about `ENN_LBA.forward` -/

/-- Claim C7: the `pdb.set_trace()` breakpoint (model.py lines 158-159) lies
on the main code path of `ENN_LBA.forward`, strictly before the prediction
is produced; outside an interactive debugging session execution therefore
halts at the breakpoint on every forward pass and never reaches the return
of the prediction. -/
theorem C7_breakpoint_in_forward :
    Step.pdb_set_trace ∈ ENN_LBA_forward_trace ∧
    Step.return_prediction ∉ runNonInteractive ENN_LBA_forward_trace ∧
    Step.output_layer_atom ∉ runNonInteractive ENN_LBA_forward_trace ∧
    ENN_LBA_forward_trace.indexOf Step.pdb_set_trace <
      ENN_LBA_forward_trace.indexOf Step.return_prediction := by decide

/-! ### Claim about `compute_global_correlations` -/

/-- Claim C1: every entry of the per-target statistics comes from a target
group with at least 3 rows (groups with fewer rows are skipped), and when
no group qualifies the per-target mean and median statistics are all NaN
(`none`) — no exception, no division by zero — while the returned flat
mapping still carries the global statistics over all rows. -/
theorem C1_small_groups_excluded (fns : CorrFns) (results : List Row) :
    (∀ e ∈ perTargetStats fns results,
        3 ≤ (results.filter (fun r => r.target == e.1)).length) ∧
    ((∀ g ∈ groupByTarget results, g.2.length < 3) →
      (compute_global_correlations fns results).per_target_mean_pearson = none ∧
      (compute_global_correlations fns results).per_target_mean_kendall = none ∧
      (compute_global_correlations fns results).per_target_mean_spearman = none ∧
      (compute_global_correlations fns results).per_target_median_pearson = none ∧
      (compute_global_correlations fns results).per_target_median_kendall = none ∧
      (compute_global_correlations fns results).per_target_median_spearman = none ∧
      (compute_global_correlations fns results).all_spearman =
        fns.spearman (results.map Row.trueVal) (results.map Row.predVal)) := by
  constructor
  · intro e he
    rw [perTargetStats, List.mem_filterMap] at he
    obtain ⟨g, hg, hfg⟩ := he
    by_cases hlen : g.2.length < 3
    · simp [hlen] at hfg
    · rw [groupByTarget, List.mem_map] at hg
      obtain ⟨t, _, rfl⟩ := hg
      rw [if_neg hlen] at hfg
      obtain rfl := Option.some_inj.mp hfg
      simpa using Nat.le_of_not_lt hlen
  · intro h
    have hpt : perTargetStats fns results = [] := by
      rw [perTargetStats, List.filterMap_eq_nil_iff]
      intro g hg
      rw [if_pos (h g hg)]
    simp [compute_global_correlations, hpt, seriesMean, seriesMedian, sortQ]

/-- Claim C1, witness: on a table whose single target group has only 2 rows,
no group qualifies and the per-target mean and median Spearman statistics
are NaN. -/
theorem C1_witness :
    (∀ g ∈ groupByTarget demoRows, g.2.length < 3) ∧
    (compute_global_correlations demoFns demoRows).per_target_mean_spearman = none ∧
    (compute_global_correlations demoFns demoRows).per_target_median_spearman = none := by
  have h : ∀ g ∈ groupByTarget demoRows, g.2.length < 3 := by decide
  have h2 := (C1_small_groups_excluded demoFns demoRows).2 h
  exact ⟨h, h2.2.2.1, h2.2.2.2.2.1⟩

/-! ### Claims about the training loop of `train` -/

/-- Claim C2: with `test_mode` set, the block after the epoch loop reloads
the best checkpoint and saves a CSV with columns
`structure, true, pred, target` — but the evaluation it runs is over the
validation split, not the held-out test split: train.py line 180 passes
`val_loader` to `test`, while the `test_loader` built at line 127 is never
used. -/
theorem C2_test_mode_uses_validation_split (epochs : List EpochData) :
    (train epochs true).finalReloadsBest = true ∧
    (train epochs true).finalEvalSplit = some DatasetSplit.valSplit ∧
    DatasetSplit.valSplit ≠ DatasetSplit.testSplit ∧
    (train epochs true).finalCsvColumns = some ["structure", "true", "pred", "target"] :=
  ⟨rfl, rfl, by simp, rfl⟩

/-- Claim C3: a checkpoint write happens in an epoch exactly when that
epoch's global validation Spearman strictly exceeds the best seen; the
written checkpoint holds exactly the epoch index, model weights, optimizer
state and that epoch's training loss; and over the Spearman sequence
[0.2, 0.5, 0.3, 0.9] exactly epochs 1, 2 and 4 write. -/
theorem C3_checkpoint_iff_improvement :
    (∀ (s : TrainState) (i : ℕ) (e : EpochData), e.all_spearman > s.best_rs →
        (runEpoch s i e).writeEpochs = s.writeEpochs ++ [i] ∧
        (runEpoch s i e).saved = some ⟨i, e.model_state, e.opt_state, e.train_loss⟩ ∧
        (runEpoch s i e).best_rs = e.all_spearman) ∧
    (∀ (s : TrainState) (i : ℕ) (e : EpochData), ¬ e.all_spearman > s.best_rs →
        runEpoch s i e = s) ∧
    (runEpochs initState 1 demoEpochs).writeEpochs = [1, 2, 4] := by
  refine ⟨?_, ?_, ?_⟩
  · intro s i e h
    simp [runEpoch, h]
  · intro s i e h
    simp [runEpoch, h]
  · norm_num [runEpochs, runEpoch, demoEpochs, initState]

/-- Claim C3, witness: from the initial state, an epoch with Spearman 1 > 0
writes a checkpoint carrying exactly its epoch index, model state,
optimizer state and training loss. -/
theorem C3_witness :
    ((1 : ℚ) > initState.best_rs) ∧
    (runEpoch initState 1
      { train_loss := 5, val_loss := 0, all_spearman := 1,
        model_state := 7, opt_state := 8 }).saved = some ⟨1, 7, 8, 5⟩ := by
  have h : (1 : ℚ) > initState.best_rs := by norm_num [initState]
  exact ⟨h, (C3_checkpoint_iff_improvement.1 initState 1 _ h).2.1⟩

/-- `runEpoch` never touches `best_val_loss`. -/
theorem runEpoch_best_val_loss (s : TrainState) (i : ℕ) (e : EpochData) :
    (runEpoch s i e).best_val_loss = s.best_val_loss := by
  by_cases h : e.all_spearman > s.best_rs <;> simp [runEpoch, h]

/-- `runEpoch` never touches `best_rp`. -/
theorem runEpoch_best_rp (s : TrainState) (i : ℕ) (e : EpochData) :
    (runEpoch s i e).best_rp = s.best_rp := by
  by_cases h : e.all_spearman > s.best_rs <;> simp [runEpoch, h]

/-- `runEpoch` updates `best_rs` to the running maximum. -/
theorem runEpoch_best_rs (s : TrainState) (i : ℕ) (e : EpochData) :
    (runEpoch s i e).best_rs = max s.best_rs e.all_spearman := by
  by_cases h : e.all_spearman > s.best_rs
  · simp [runEpoch, h, max_eq_right h.le]
  · simp [runEpoch, h, max_eq_left (le_of_not_lt h)]

/-- Over the whole epoch loop, `best_val_loss` and `best_rp` are constant
and `best_rs` is the running maximum of the observed Spearman values. -/
theorem runEpochs_trackers (es : List EpochData) : ∀ (s : TrainState) (i : ℕ),
    (runEpochs s i es).best_val_loss = s.best_val_loss ∧
    (runEpochs s i es).best_rp = s.best_rp ∧
    (runEpochs s i es).best_rs =
      es.foldl (fun b e => max b e.all_spearman) s.best_rs := by
  induction es with
  | nil => exact fun s i => ⟨rfl, rfl, rfl⟩
  | cons e es ih =>
      intro s i
      obtain ⟨h1, h2, h3⟩ := ih (runEpoch s i e) (i + 1)
      refine ⟨?_, ?_, ?_⟩
      · rw [runEpochs, h1, runEpoch_best_val_loss]
      · rw [runEpochs, h2, runEpoch_best_rp]
      · rw [runEpochs, h3, runEpoch_best_rs, List.foldl_cons]

/-- Claim C8: `train` returns `best_val_loss = 999` and `best_rp = 0`
unconditionally — the two trackers are initialized and never updated —
while the returned `best_rs` is the running maximum (from 0) of the
per-epoch global Spearman values. -/
theorem C8_constant_returns (epochs : List EpochData) (test_mode : Bool) :
    (train epochs test_mode).best_val_loss = 999 ∧
    (train epochs test_mode).best_rp = 0 ∧
    (train epochs test_mode).best_rs =
      epochs.foldl (fun b e => max b e.all_spearman) 0 := by
  obtain ⟨h1, h2, h3⟩ := runEpochs_trackers epochs initState 1
  exact ⟨h1, h2, h3⟩

/-- When every epoch's Spearman value is ≤ 0 the loop never leaves the
initial state. -/
theorem runEpochs_initState_nonpos (es : List EpochData) :
    ∀ i : ℕ, (∀ e ∈ es, e.all_spearman ≤ 0) → runEpochs initState i es = initState := by
  induction es with
  | nil => exact fun i _ => rfl
  | cons e es ih =>
      intro i h
      have he0 : e.all_spearman ≤ initState.best_rs := by
        simpa [initState] using h e (List.mem_cons_self e es)
      rw [runEpochs, runEpoch, if_neg (not_lt.mpr he0)]
      exact ih (i + 1) (fun x hx => h x (List.mem_cons_of_mem e hx))

/-- Claim C9: because `best_rs` starts at 0 and a write requires a strict
improvement, a run whose every epoch has global validation Spearman ≤ 0
never writes a checkpoint file. -/
theorem C9_no_checkpoint_nonpositive_spearman (epochs : List EpochData) (test_mode : Bool)
    (h : ∀ e ∈ epochs, e.all_spearman ≤ 0) :
    (train epochs test_mode).saved = none ∧ (train epochs test_mode).writeEpochs = [] := by
  have hrun := runEpochs_initState_nonpos epochs 1 h
  constructor
  · show (runEpochs initState 1 epochs).saved = none
    rw [hrun]
    rfl
  · show (runEpochs initState 1 epochs).writeEpochs = []
    rw [hrun]
    rfl

/-- Claim C9, witness: a run with Spearman values [-1, 0] writes nothing. -/
theorem C9_witness :
    (∀ e ∈ demoNonposEpochs, e.all_spearman ≤ 0) ∧
    (train demoNonposEpochs false).saved = none ∧
    (train demoNonposEpochs false).writeEpochs = [] := by
  have h : ∀ e ∈ demoNonposEpochs, e.all_spearman ≤ 0 := by
    intro e he
    simp only [demoNonposEpochs, List.mem_cons, List.not_mem_nil, or_false] at he
    rcases he with rfl | rfl <;> norm_num
  exact ⟨h, (C9_no_checkpoint_nonpositive_spearman demoNonposEpochs false h).1,
    (C9_no_checkpoint_nonpositive_spearman demoNonposEpochs false h).2⟩

/-! ### Claim about `train_loop` -/

/-- The accumulator of `train_loop` in closed form: the batch-size-weighted
sum of losses and the total graph count. -/
theorem train_loop_acc_eq (batches : List Batch) :
    train_loop_acc batches =
      ((batches.map (fun b => b.mse * (b.num_graphs : ℝ))).sum,
       (batches.map Batch.num_graphs).sum) := by
  have key : ∀ (bs : List Batch) (p : ℝ × ℕ),
      bs.foldl (fun p b => (p.1 + b.mse * (b.num_graphs : ℝ), p.2 + b.num_graphs)) p =
        (p.1 + (bs.map (fun b => b.mse * (b.num_graphs : ℝ))).sum,
         p.2 + (bs.map Batch.num_graphs).sum) := by
    intro bs
    induction bs with
    | nil => intro p; simp
    | cons b bs ih =>
        intro p
        rw [List.foldl_cons, ih]
        simp only [List.map_cons, List.sum_cons, Prod.mk.injEq]
        constructor
        · ring
        · omega
  simpa [train_loop_acc] using key batches (0, 0)

/-- `train_loop` in closed form: the square root of the weighted mean. -/
theorem train_loop_eq_sqrt (batches : List Batch) :
    train_loop batches =
      Real.sqrt ((batches.map (fun b => b.mse * (b.num_graphs : ℝ))).sum /
        ((batches.map Batch.num_graphs).sum : ℝ)) := by
  rw [train_loop, train_loop_acc_eq]

/-- Claim C6, counterexample: on a single batch of one graph with mean
squared error 4, the batch-size-weighted mean of the per-batch losses is
4, but `train_loop` returns 2 — `np.sqrt` is applied to the weighted mean
before returning. -/
theorem C6_counterexample_sqrt :
    train_loop demoBatches = 2 ∧ (2 : ℝ) ≠ 4 ∧
    ((demoBatches.map (fun b => b.mse * (b.num_graphs : ℝ))).sum /
      ((demoBatches.map Batch.num_graphs).sum : ℝ)) = 4 := by
  have h4 : ((demoBatches.map (fun b => b.mse * (b.num_graphs : ℝ))).sum /
      ((demoBatches.map Batch.num_graphs).sum : ℝ)) = 4 := by
    simp [demoBatches]
  refine ⟨?_, by norm_num, h4⟩
  rw [train_loop_eq_sqrt, h4, show (4 : ℝ) = 2 ^ 2 by norm_num,
    Real.sqrt_sq (by norm_num)]

/-- Claim C6, amended: `train_loop` accumulates the mean squared error loss
weighted by batch size, and returns the square root of that accumulated
loss divided by the total number of graphs — the root of the
batch-size-weighted mean of the per-batch mean squared errors, not the
weighted mean itself. -/
theorem C6_train_loop_rmse_amended (batches : List Batch) :
    train_loop batches =
      Real.sqrt ((batches.map (fun b => b.mse * (b.num_graphs : ℝ))).sum /
        ((batches.map Batch.num_graphs).sum : ℝ)) :=
  train_loop_eq_sqrt batches

end Atom3D
